import Mathlib

/-!
Verification of the Azure translation tools (langchain community fork).

The Python modules under `langchain_community/tools/azure_ai_services` are
shallowly embedded: remote calls are modelled as explicit backend doubles
(`Backend`, `NetCall`), the file system and the unstructured document loaders
as explicit function parameters, and Python exceptions as the `PyError`
inductive carried in `Except`.  Every function returns, besides its result,
the list of requests it issued to the backend, so that claims about the
number of remote invocations can be stated.
-/

namespace AzureSpec

/-- Python exception kinds relevant to the translation tools, each carrying
the message produced by `str(e)`. -/
inductive PyError where
  | valueError (msg : String)
  | runtimeError (msg : String)
  | authError (msg : String)
  | transientError (msg : String)
  | indexError (msg : String)
  | ioError (msg : String)
  deriving DecidableEq, Repr

/-- The text of `str(e)` for an exception, used when Python interpolates an
exception into a wrapping message. -/
def PyError.message : PyError → String
  | .valueError m => m
  | .runtimeError m => m
  | .authError m => m
  | .transientError m => m
  | .indexError m => m
  | .ioError m => m

/-- One translation in the remote response (`translations[i]`). -/
structure Translation where
  text : String
  deriving DecidableEq, Repr

/-- One item of the remote response list (`response[i]`). -/
structure TranslationItem where
  translations : List Translation
  deriving DecidableEq, Repr

/-- The request data handed to `translate_client.translate`: the submitted
texts and the target-language list. -/
structure TranslateRequest where
  texts : List String
  to_languages : List String
  deriving DecidableEq, Repr

/-- A test double for the remote translation call: maps a request to a
response list or to a raised exception. -/
abbrev Backend := TranslateRequest → Except PyError (List TranslationItem)

/-- A test double for reading a plain-text file: `open` + `read`. -/
abbrev FileSystem := String → Except PyError String

/-- The document-loader classes keyed in `loader_map`. -/
inductive LoaderKind where
  | pdf | docx | pptx | xlsx | xml | html
  deriving DecidableEq, Repr

/-- A test double for the unstructured loaders: `loader_class(path).load()`
returning the `page_content` of each produced document. -/
abbrev Loaders := LoaderKind → String → Except PyError (List String)

/-- The process environment, `os.getenv`. -/
abbrev Env := String → Option String

/-- Python `x or y` on optional strings: `None` and `""` are falsy. -/
def pyOr (x y : Option String) : Option String :=
  match x with
  | some s => if s = "" then y else some s
  | none => y

/-- Python truthiness of an optional string. -/
def truthyOpt : Option String → Bool
  | some s => s ≠ ""
  | none => false

/-! ### `os.path.splitext`

Faithful model of CPython `posixpath.splitext`: the extension starts at the
last dot of the basename, provided some character of the basename before
that dot is not itself a dot (names consisting only of leading dots, such
as `.bashrc`, have no extension). -/

/-- Index of the last occurrence of a character in a list, if any. -/
def lastIndexOf (cs : List Char) (c : Char) : Option Nat :=
  match cs with
  | [] => none
  | x :: xs =>
    match lastIndexOf xs c with
    | some i => some (i + 1)
    | none => if x = c then some 0 else none

/-- The start index of the basename: one past the last `/`, else `0`. -/
def basenameStart (cs : List Char) : Nat :=
  match lastIndexOf cs '/' with
  | some i => i + 1
  | none => 0

/-- The extension (with its dot) of a path, as by `os.path.splitext(p)[1]`. -/
def splitextExt (p : String) : String :=
  let cs := p.data
  match lastIndexOf cs '.' with
  | none => ""
  | some d =>
    let f := basenameStart cs
    if f ≤ d ∧ ((cs.drop f).take (d - f)).any (fun ch => ch ≠ '.') then
      String.mk (cs.drop d)
    else ""

/-- Python `str.lower()` on the characters of a string. -/
def pyLower (s : String) : String := ⟨s.data.map Char.toLower⟩

/-- Python `str.strip()`: drop leading and trailing whitespace. -/
def pyStrip (s : String) : String :=
  ⟨((s.data.dropWhile Char.isWhitespace).reverse.dropWhile Char.isWhitespace).reverse⟩

/-! ### `AzureFileTranslateTool` (azure_file_translation.py) -/

/-- Pydantic state of `AzureFileTranslateTool`; the field defaults of the
class are `""`, `""` and `"en"`. -/
structure AzureFileTranslateTool where
  text_translation_key : String
  text_translation_endpoint : String
  target_language : String
  deriving DecidableEq, Repr

/-- An `AzureFileTranslateTool` built with the class field defaults. -/
def AzureFileTranslateTool.default : AzureFileTranslateTool :=
  ⟨"", "", "en"⟩

/-- The `loader_map` dictionary of `_read_text_from_file`, keyed by the
lowercased extension. -/
def loader_map (ext : String) : Option LoaderKind :=
  if ext = ".pdf" then some .pdf
  else if ext = ".docx" then some .docx
  else if ext = ".pptx" then some .pptx
  else if ext = ".xlsx" then some .xlsx
  else if ext = ".xml" then some .xml
  else if ext = ".html" then some .html
  else none

/-- Model of `AzureFileTranslateTool._read_text`: open the file and `strip()` its
contents. -/
def AzureFileTranslateTool.read_text (fs : FileSystem) (file_path : String) :
    Except PyError String :=
  match fs file_path with
  | .ok content => .ok (pyStrip content)
  | .error e => .error e

/-- Model of `AzureFileTranslateTool._read_text_from_file`: dispatch on the lowercased
extension; `.txt` is read directly, mapped extensions go through the loader
and the page contents are joined with a single space, anything else raises
`ValueError`. -/
def AzureFileTranslateTool.read_text_from_file (fs : FileSystem)
    (loaders : Loaders) (file_path : String) : Except PyError String :=
  if pyLower (splitextExt file_path) = ".txt" then
    AzureFileTranslateTool.read_text fs file_path
  else
    match loader_map (pyLower (splitextExt file_path)) with
    | none => .error (.valueError ("Unsupported file type: " ++ pyLower (splitextExt file_path)))
    | some k =>
      match loaders k file_path with
      | .ok data => .ok (String.intercalate " " data)
      | .error e => .error e

/-- Model of `AzureFileTranslateTool._translate_text`: resolve the target language
from the instance when none is passed, issue one backend call, read
`response[0].translations`, return `translations[0].text` when non-empty and
`""` otherwise; any exception inside the `try` is wrapped into
`RuntimeError`.  The second component lists the backend requests issued. -/
def AzureFileTranslateTool.translate_text (tool : AzureFileTranslateTool)
    (client : Backend) (text : String) (target_language : Option String) :
    Except PyError String × List TranslateRequest :=
  match client ⟨[text], [target_language.getD tool.target_language]⟩ with
  | .error e =>
    (.error (.runtimeError ("An error occurred during translation: " ++ e.message)),
      [⟨[text], [target_language.getD tool.target_language]⟩])
  | .ok response =>
    match response.head? with
    | none =>
      (.error (.runtimeError ("An error occurred during translation: " ++ "list index out of range")),
        [⟨[text], [target_language.getD tool.target_language]⟩])
    | some item =>
      match item.translations.head? with
      | some t => (.ok t.text, [⟨[text], [target_language.getD tool.target_language]⟩])
      | none => (.ok "", [⟨[text], [target_language.getD tool.target_language]⟩])

/-- Model of `AzureFileTranslateTool._run`: call `_translate_text(query)` on the raw
query string and wrap any exception into `RuntimeError`. -/
def AzureFileTranslateTool.run (tool : AzureFileTranslateTool)
    (client : Backend) (query : String) :
    Except PyError String × List TranslateRequest :=
  match tool.translate_text client query none with
  | (.ok s, log) => (.ok s, log)
  | (.error e, log) =>
    (.error (.runtimeError ("Error while running AzureFileTranslateTool: " ++ e.message)), log)

/-! ### Format detection, factored out of `_read_text_from_file` -/

/-- The document formats distinguished by `_read_text_from_file`. -/
inductive FormatTag where
  | plainText | pdf | docx | pptx | xlsx | html | xml | unsupported
  deriving DecidableEq, Repr

/-- The format dispatch performed by `_read_text_from_file`, as a pure
function of the path: lowercased `splitext` extension, `.txt` handled
directly, `loader_map` for the rest, everything else unsupported. -/
def detect (path : String) : FormatTag :=
  if pyLower (splitextExt path) = ".txt" then .plainText
  else
    match loader_map (pyLower (splitextExt path)) with
    | some .pdf => .pdf
    | some .docx => .docx
    | some .pptx => .pptx
    | some .xlsx => .xlsx
    | some .xml => .xml
    | some .html => .html
    | none => .unsupported

/-! ### `AzureDocumentTranslateTool` (azure_document_translation.py) -/

/-- Pydantic state of `AzureDocumentTranslateTool`; the class default of
`target_language` is `"es"`. -/
structure AzureDocumentTranslateTool where
  text_translation_key : String
  text_translation_endpoint : String
  target_language : String
  deriving DecidableEq, Repr

/-- Model of `AzureDocumentTranslateTool.__init__`: each credential argument falls
back to the corresponding environment variable when `None` or empty; if the
resulting key or endpoint is still falsy, `ValueError` is raised, otherwise
the instance is built (with the class default target language `"es"`). -/
def AzureDocumentTranslateTool.init (env : Env)
    (text_translation_key text_translation_endpoint : Option String) :
    Except PyError AzureDocumentTranslateTool :=
  if truthyOpt (pyOr text_translation_key (env "TEXT_TRANSLATION_KEY"))
      && truthyOpt (pyOr text_translation_endpoint (env "TEXT_TRANSLATION_ENDPOINT")) then
    .ok ⟨(pyOr text_translation_key (env "TEXT_TRANSLATION_KEY")).getD "",
      (pyOr text_translation_endpoint (env "TEXT_TRANSLATION_ENDPOINT")).getD "", "es"⟩
  else
    .error (.valueError "Azure Cognitive Services key and endpoint must be provided")

/-- Model of `AzureDocumentTranslateTool.read_text`: open the file and `strip()` its
contents. -/
def AzureDocumentTranslateTool.read_text (fs : FileSystem) (file_path : String) :
    Except PyError String :=
  match fs file_path with
  | .ok content => .ok (pyStrip content)
  | .error e => .error e

/-- Model of `AzureDocumentTranslateTool.read_text_from_file`: same dispatch as the
file tool — lowercased extension, `.txt` read directly, `loader_map` lookup,
page contents joined with a single space, `ValueError` otherwise. -/
def AzureDocumentTranslateTool.read_text_from_file (fs : FileSystem)
    (loaders : Loaders) (file_path : String) : Except PyError String :=
  if pyLower (splitextExt file_path) = ".txt" then
    AzureDocumentTranslateTool.read_text fs file_path
  else
    match loader_map (pyLower (splitextExt file_path)) with
    | none => .error (.valueError ("Unsupported file type: " ++ pyLower (splitextExt file_path)))
    | some k =>
      match loaders k file_path with
      | .ok data => .ok (String.intercalate " " data)
      | .error e => .error e

/-- Model of `AzureDocumentTranslateTool.translate_text`: one backend call, read
`response[0].translations`, return `translations[0].text` when non-empty and
`""` otherwise; exceptions are logged and re-raised unchanged (`raise`). -/
def AzureDocumentTranslateTool.translate_text (tool : AzureDocumentTranslateTool)
    (client : Backend) (text : String) (target_language : Option String) :
    Except PyError String × List TranslateRequest :=
  match client ⟨[text], [target_language.getD tool.target_language]⟩ with
  | .error e => (.error e, [⟨[text], [target_language.getD tool.target_language]⟩])
  | .ok response =>
    match response.head? with
    | none =>
      (.error (.indexError "list index out of range"),
        [⟨[text], [target_language.getD tool.target_language]⟩])
    | some item =>
      match item.translations.head? with
      | some t => (.ok t.text, [⟨[text], [target_language.getD tool.target_language]⟩])
      | none => (.ok "", [⟨[text], [target_language.getD tool.target_language]⟩])

/-- Model of `AzureDocumentTranslateTool._run`: call `translate_text(query)` on the
raw query string and wrap any exception into `RuntimeError`. -/
def AzureDocumentTranslateTool.run (tool : AzureDocumentTranslateTool)
    (client : Backend) (query : String) :
    Except PyError String × List TranslateRequest :=
  match tool.translate_text client query none with
  | (.ok s, log) => (.ok s, log)
  | (.error e, log) =>
    (.error (.runtimeError ("Error while running AzureDocumentTranslateTool: " ++ e.message)), log)

/-! ### `AzureAITextTranslateTool` (text_translate.py) -/

/-- Model of `AzureAITextTranslateTool._translate_text`: raise `ValueError` on empty
text before anything else; otherwise one backend call, return
`response[0].translations[0].text`, wrapping any exception from the `try`
into `RuntimeError`. -/
def AzureAITextTranslateTool.translate_text (client : Backend)
    (text : String) (to_language : String) :
    Except PyError String × List TranslateRequest :=
  if text = "" then
    (.error (.valueError "Input text for translation is empty."), [])
  else
    match client ⟨[text], [to_language]⟩ with
    | .error e =>
      (.error (.runtimeError ("Translation failed: " ++ e.message)), [⟨[text], [to_language]⟩])
    | .ok response =>
      match response.head? with
      | none =>
        (.error (.runtimeError ("Translation failed: " ++ "list index out of range")),
          [⟨[text], [to_language]⟩])
      | some item =>
        match item.translations.head? with
        | some t => (.ok t.text, [⟨[text], [to_language]⟩])
        | none =>
          (.error (.runtimeError ("Translation failed: " ++ "list index out of range")),
            [⟨[text], [to_language]⟩])

/-- Model of `AzureAITextTranslateTool._run`: pass the query and the per-call
`to_language` straight to `_translate_text`. -/
def AzureAITextTranslateTool.run (client : Backend) (query : String)
    (to_language : String) : Except PyError String × List TranslateRequest :=
  AzureAITextTranslateTool.translate_text client query to_language

/-! ### `AzureTranslateTool` (translate_tool.py)

This variant keeps a lazily constructed `translate_client` in mutable
instance state, so it is modelled as explicit state passing.  The
`TextTranslationClient` constructor only records the endpoint and the
credential, hence `Client` is that record and construction is pure. -/

/-- The `TextTranslationClient` handle: endpoint plus credential key. -/
structure Client where
  endpoint : String
  credential_key : String
  deriving DecidableEq, Repr

/-- A test double for the remote call made through a concrete client. -/
abbrev NetCall := Client → TranslateRequest → Except PyError (List TranslationItem)

/-- Instance state of translate_tool's `AzureTranslateTool`. -/
structure AzureTranslateTool where
  text_translation_key : String
  text_translation_endpoint : String
  region : String
  translate_client : Option Client
  deriving DecidableEq, Repr

/-- Pydantic construction of translate_tool's `AzureTranslateTool` with
explicit field values; the `translate_client` default is `None` and no
validator reads the environment. -/
def AzureTranslateTool.construct (key endpoint region : String) :
    AzureTranslateTool :=
  ⟨key, endpoint, region, none⟩

/-- Model of `AzureTranslateTool.validate_environment`: read the three environment
variables with default `""`, overwrite the instance fields with them, then
raise `ValueError` for whichever of key, endpoint, region is empty. -/
def AzureTranslateTool.validate_environment (s : AzureTranslateTool)
    (env : Env) : Except PyError AzureTranslateTool :=
  if (env "AZURE_TRANSLATE_API_KEY").getD "" = "" then
    .error (.valueError "AZURE_TRANSLATE_API_KEY is missing in environment variables")
  else if (env "AZURE_TRANSLATE_ENDPOINT").getD "" = "" then
    .error (.valueError "AZURE_TRANSLATE_ENDPOINT is missing in environment variables")
  else if (env "REGION").getD "" = "" then
    .error (.valueError "AZURE_REGION is missing in environment variables")
  else
    .ok ⟨(env "AZURE_TRANSLATE_API_KEY").getD "", (env "AZURE_TRANSLATE_ENDPOINT").getD "",
      (env "REGION").getD "", s.translate_client⟩

/-- Model of `AzureTranslateTool.setup_client`: construct the `TextTranslationClient`
only when `translate_client` is falsy, from the instance endpoint and key;
an existing client is left untouched.  The body reads no environment
variable, so `env` is unused. -/
def AzureTranslateTool.setup_client (s : AzureTranslateTool) (_env : Env) :
    AzureTranslateTool :=
  match s.translate_client with
  | some _ => s
  | none =>
    ⟨s.text_translation_key, s.text_translation_endpoint, s.region,
      some ⟨s.text_translation_endpoint, s.text_translation_key⟩⟩

/-- Model of `AzureTranslateTool._translate_text`: raise `ValueError` on empty text,
ensure the client exists via `setup_client`, then one remote call through
that client, returning `response[0].translations[0].text`; exceptions from
the `try` are wrapped into `RuntimeError`.  Returns the result, the
post-call state and the list of `(client, request)` pairs issued.  The body
reads no environment variable. -/
def AzureTranslateTool.translate_text (s : AzureTranslateTool) (env : Env)
    (net : NetCall) (text : String) (to_language : String) :
    Except PyError String × AzureTranslateTool × List (Client × TranslateRequest) :=
  if text = "" then
    (.error (.valueError "Input text for translation is empty."), s, [])
  else
    match (s.setup_client env).translate_client with
    | none =>
      (.error (.runtimeError "Translation failed: translate_client is None"),
        s.setup_client env, [])
    | some c =>
      match net c ⟨[text], [to_language]⟩ with
      | .error e =>
        (.error (.runtimeError ("Translation failed: " ++ e.message)),
          s.setup_client env, [(c, ⟨[text], [to_language]⟩)])
      | .ok response =>
        match response.head? with
        | none =>
          (.error (.runtimeError ("Translation failed: " ++ "list index out of range")),
            s.setup_client env, [(c, ⟨[text], [to_language]⟩)])
        | some item =>
          match item.translations.head? with
          | some t => (.ok t.text, s.setup_client env, [(c, ⟨[text], [to_language]⟩)])
          | none =>
            (.error (.runtimeError ("Translation failed: " ++ "list index out of range")),
              s.setup_client env, [(c, ⟨[text], [to_language]⟩)])

/-- Model of `AzureTranslateTool._run`: delegate to `_translate_text` with the
per-call `to_language`. -/
def AzureTranslateTool.run (s : AzureTranslateTool) (env : Env)
    (net : NetCall) (query : String) (to_language : String) :
    Except PyError String × AzureTranslateTool × List (Client × TranslateRequest) :=
  s.translate_text env net query to_language

/-! ### `AzureTranslateTool` (azure_translator/azureTranslate.py)

A distinct class of the same name; here named `AzureTranslatorTool` to keep
the two apart.  Its `__init__` validates the key and endpoint (with
environment fallback) and builds the client eagerly. -/

/-- Model of `azureTranslate.AzureTranslateTool.__init__` credential handling: each
argument falls back to its environment variable; `ValueError` when either
effective value is falsy (`if not translate_key or not translate_endpoint`,
modelled through the equivalent positive guard), else the validated
`(key, endpoint)` pair. -/
def AzureTranslatorTool.init (env : Env)
    (translate_key translate_endpoint : Option String) :
    Except PyError (String × String) :=
  if truthyOpt (pyOr translate_key (env "AZURE_OPENAI_TRANSLATE_API_KEY"))
      && truthyOpt (pyOr translate_endpoint (env "AZURE_OPENAI_TRANSLATE_ENDPOINT")) then
    .ok ((pyOr translate_key (env "AZURE_OPENAI_TRANSLATE_API_KEY")).getD "",
      (pyOr translate_endpoint (env "AZURE_OPENAI_TRANSLATE_ENDPOINT")).getD "")
  else
    .error (.valueError "Missing API key or endpoint for Azure Translator API.")

/-- Model of `azureTranslate.AzureTranslateTool._translate_text`: empty text logs and
returns `None`; a non-empty (truthy) response yields
`response[0].translations[0].text`, an empty response returns `None`, and
any exception in the `try` is re-raised unchanged (`raise`). -/
def AzureTranslatorTool.translate_text (client : Backend)
    (text : String) (to_language : String) :
    Except PyError (Option String) × List TranslateRequest :=
  if text = "" then
    (.ok none, [])
  else
    match client ⟨[text], [to_language]⟩ with
    | .error e => (.error e, [⟨[text], [to_language]⟩])
    | .ok response =>
      match response.head? with
      | none => (.ok none, [⟨[text], [to_language]⟩])
      | some item =>
        match item.translations.head? with
        | some t => (.ok (some t.text), [⟨[text], [to_language]⟩])
        | none => (.error (.indexError "list index out of range"), [⟨[text], [to_language]⟩])

/-- Model of `azureTranslate.AzureTranslateTool._run`: call `_translate_text` and
wrap any exception into `RuntimeError`. -/
def AzureTranslatorTool.run (client : Backend) (query : String)
    (to_language : String) :
    Except PyError (Option String) × List TranslateRequest :=
  match AzureTranslatorTool.translate_text client query to_language with
  | (.ok r, log) => (.ok r, log)
  | (.error e, log) =>
    (.error (.runtimeError ("Error while running AzureTranslateTool: " ++ e.message)), log)

/-! ### Test doubles -/

/-- A backend double whose response carries an empty translations list. -/
def emptyTranslationsBackend : Backend := fun _ => .ok [⟨[]⟩]

/-- A backend double that always answers with the given translation. -/
def constBackend (s : String) : Backend := fun _ => .ok [⟨[⟨s⟩]⟩]

/-- A backend double that always raises the given exception. -/
def failingBackend (e : PyError) : Backend := fun _ => .error e

/-- A backend double for Scenario B: it knows the French translation of the
extracted PDF text and answers `"untranslated"` for any other submission. -/
def quarterlyBackend : Backend := fun req =>
  if req.texts = ["Quarterly results"] then .ok [⟨[⟨"Résultats trimestriels"⟩]⟩]
  else .ok [⟨[⟨"untranslated"⟩]⟩]

/-- A loader double returning the given page contents for every file. -/
def constLoaders (docs : List String) : Loaders := fun _ _ => .ok docs

/-- A file-system double on which every `open` raises. -/
def noFile : FileSystem := fun _ => .error (.ioError "No such file or directory")

/-- A network double answering every request with the given translation. -/
def constNet (s : String) : NetCall := fun _ _ => .ok [⟨[⟨s⟩]⟩]

/-- The environment of the Claim 7 counterexample: both credential variables
are populated. -/
def env7 : Env := fun n =>
  if n = "TEXT_TRANSLATION_KEY" then some "env-key"
  else if n = "TEXT_TRANSLATION_ENDPOINT" then some "env-endpoint"
  else none

/-- An environment holding all three variables read by
`validate_environment`, with values differing from the explicit config. -/
def envA : Env := fun n =>
  if n = "AZURE_TRANSLATE_API_KEY" then some "other-key"
  else if n = "AZURE_TRANSLATE_ENDPOINT" then some "other-endpoint"
  else if n = "REGION" then some "other-region"
  else none

/-- The empty environment. -/
def envEmpty : Env := fun _ => none

/-! ### Helper lemmas -/

/-- Lemma: `_translate_text` of the file tool always issues exactly the one request
built from the text and the resolved target language. -/
lemma file_translate_text_log (tool : AzureFileTranslateTool) (client : Backend)
    (text : String) (tl : Option String) :
    (tool.translate_text client text tl).2
      = [⟨[text], [tl.getD tool.target_language]⟩] := by
  unfold AzureFileTranslateTool.translate_text
  rcases h : client ⟨[text], [tl.getD tool.target_language]⟩ with e | response
  · rfl
  · rcases response with _ | ⟨item, rest⟩
    · rfl
    · rcases item with ⟨ts⟩
      rcases ts with _ | ⟨t, more⟩ <;> rfl

/-- Lemma: `translate_text` of the document tool always issues exactly the one
request built from the text and the resolved target language. -/
lemma doc_translate_text_log (tool : AzureDocumentTranslateTool) (client : Backend)
    (text : String) (tl : Option String) :
    (tool.translate_text client text tl).2
      = [⟨[text], [tl.getD tool.target_language]⟩] := by
  unfold AzureDocumentTranslateTool.translate_text
  rcases h : client ⟨[text], [tl.getD tool.target_language]⟩ with e | response
  · rfl
  · rcases response with _ | ⟨item, rest⟩
    · rfl
    · rcases item with ⟨ts⟩
      rcases ts with _ | ⟨t, more⟩ <;> rfl

/-- Lemma: `_run` of the file tool forwards the request log of `_translate_text`. -/
lemma file_run_log (tool : AzureFileTranslateTool) (client : Backend)
    (query : String) :
    (tool.run client query).2 = [⟨[query], [tool.target_language]⟩] := by
  unfold AzureFileTranslateTool.run
  rcases h : tool.translate_text client query none with ⟨r, log⟩
  have hl : log = [⟨[query], [tool.target_language]⟩] := by
    have := file_translate_text_log tool client query none
    rw [h] at this
    simpa using this
  rcases r with e | s <;> simpa using hl

/-- Lemma: `_run` of the document tool forwards the request log of
`translate_text`. -/
lemma doc_run_log (tool : AzureDocumentTranslateTool) (client : Backend)
    (query : String) :
    (tool.run client query).2 = [⟨[query], [tool.target_language]⟩] := by
  unfold AzureDocumentTranslateTool.run
  rcases h : tool.translate_text client query none with ⟨r, log⟩
  have hl : log = [⟨[query], [tool.target_language]⟩] := by
    have := doc_translate_text_log tool client query none
    rw [h] at this
    simpa using this
  rcases r with e | s <;> simpa using hl

/-- Lemma: `detect` yields `unsupported` exactly when the lowercased extension is
neither `.txt` nor a key of `loader_map`. -/
lemma detect_eq_unsupported_iff (path : String) :
    detect path = .unsupported ↔
      (pyLower (splitextExt path) ≠ ".txt"
        ∧ loader_map (pyLower (splitextExt path)) = none) := by
  unfold detect
  by_cases h : pyLower (splitextExt path) = ".txt"
  · simp [h]
  · simp only [if_neg h]
    rcases hl : loader_map (pyLower (splitextExt path)) with _ | k
    · simp [h, hl]
    · cases k <;> simp [h, hl]

/-- Lemma: `loader_map` does not map the plain-text extension. -/
lemma loader_map_txt : loader_map ".txt" = none := rfl

/-- Python truthiness of `x or None` equals truthiness of `x`. -/
lemma truthyOpt_pyOr_none (x : Option String) :
    truthyOpt (pyOr x none) = truthyOpt x := by
  rcases x with _ | s
  · rfl
  · by_cases h : s = "" <;> simp [pyOr, truthyOpt, h]

/-- A truthy optional string is `some` of a non-empty string. -/
lemma truthyOpt_getD_ne (x : Option String) (h : truthyOpt x = true) :
    x.getD "" ≠ "" := by
  rcases x with _ | s
  · simp [truthyOpt] at h
  · simp only [truthyOpt] at h
    simpa [Option.getD] using of_decide_eq_true h

/-- Lemma: `setup_client` always leaves a client in place. -/
lemma setup_client_isSome (s : AzureTranslateTool) (env : Env) :
    ((s.setup_client env).translate_client).isSome := by
  obtain ⟨k, ep, rg, oc⟩ := s
  rcases oc with _ | c <;> rfl

/-! ### Claims -/

/-- Claim C1 counterexample: against a backend double whose successful
response carries an empty translations list, `_translate_text` of both
file-translation tools silently returns the empty string instead of failing
with a translation error. -/
theorem C1_counterexample :
    AzureFileTranslateTool.default.translate_text emptyTranslationsBackend "Hello" none
      = (.ok "", [⟨["Hello"], ["en"]⟩])
    ∧ (AzureDocumentTranslateTool.mk "k" "ep" "es").translate_text
        emptyTranslationsBackend "Hello" none
      = (.ok "", [⟨["Hello"], ["es"]⟩]) :=
  ⟨rfl, rfl⟩

/-- Claim C1 (amended): whenever the remote call succeeds and its first
response item has an empty translations list, `_translate_text` of the file
tool and `translate_text` of the document tool return the empty string as
the translation (no error is raised). -/
theorem C1_empty_translations_yield_empty_string
    (client : Backend) (text : String) (tool : AzureFileTranslateTool)
    (dtool : AzureDocumentTranslateTool) (r : TranslationItem)
    (rest : List TranslationItem) (hr : r.translations = []) :
    (client ⟨[text], [tool.target_language]⟩ = .ok (r :: rest) →
      tool.translate_text client text none
        = (.ok "", [⟨[text], [tool.target_language]⟩]))
    ∧ (client ⟨[text], [dtool.target_language]⟩ = .ok (r :: rest) →
      dtool.translate_text client text none
        = (.ok "", [⟨[text], [dtool.target_language]⟩])) := by
  constructor
  · intro h
    simp [AzureFileTranslateTool.translate_text, h, hr]
  · intro h
    simp [AzureDocumentTranslateTool.translate_text, h, hr]

/-- Claim C1 witness: the amended theorem applied to the empty-translations
backend double at text `Hi`. -/
theorem C1_witness :
    AzureFileTranslateTool.default.translate_text emptyTranslationsBackend "Hi" none
      = (.ok "", [⟨["Hi"], ["en"]⟩]) :=
  (C1_empty_translations_yield_empty_string emptyTranslationsBackend "Hi"
    AzureFileTranslateTool.default ⟨"k", "ep", "es"⟩ ⟨[]⟩ [] rfl).1 rfl

/-- Claim C2 (code bug witness): with the extractor double yielding
`Quarterly results` for `report.pdf` and a backend double that translates
exactly that text to `Résultats trimestriels`, `_run` never extracts: it
submits the literal path `report.pdf` to the backend and returns the
backend's answer for the path (`untranslated`), although
`_read_text_from_file` on the same doubles would have produced the extracted
text the claim expects to be sent. -/
theorem C2_run_sends_path_not_extracted_text :
    AzureFileTranslateTool.default.run quarterlyBackend "report.pdf"
      = (.ok "untranslated", [⟨["report.pdf"], ["en"]⟩])
    ∧ AzureFileTranslateTool.read_text_from_file noFile
        (constLoaders ["Quarterly results"]) "report.pdf" = .ok "Quarterly results"
    ∧ quarterlyBackend ⟨["Quarterly results"], ["fr"]⟩
      = .ok [⟨[⟨"Résultats trimestriels"⟩]⟩] :=
  ⟨rfl, rfl, rfl⟩

/-- Claim C3 counterexample: `AzureFileTranslateTool._translate_text` with
empty input text performs no validation — the backend double records one
invocation and the call returns the double's translation instead of failing
with a validation error. -/
theorem C3_counterexample :
    AzureFileTranslateTool.default.translate_text (constBackend "Hola") "" none
      = (.ok "Hola", [⟨[""], ["en"]⟩]) :=
  rfl

/-- Claim C3 (amended): `AzureAITextTranslateTool._translate_text` and
translate_tool's `AzureTranslateTool._translate_text` fail with `ValueError`
on empty text with zero backend invocations, but the file and document
tools' translate functions issue exactly one backend request even when the
text is empty. -/
theorem C3_empty_text_validation (client : Backend) (lang : String)
    (tool : AzureFileTranslateTool) (dtool : AzureDocumentTranslateTool)
    (env : Env) (net : NetCall) (s : AzureTranslateTool) :
    AzureAITextTranslateTool.translate_text client "" lang
      = (.error (.valueError "Input text for translation is empty."), [])
    ∧ s.translate_text env net "" lang
      = (.error (.valueError "Input text for translation is empty."), s, [])
    ∧ (tool.translate_text client "" none).2 = [⟨[""], [tool.target_language]⟩]
    ∧ (dtool.translate_text client "" none).2 = [⟨[""], [dtool.target_language]⟩] := by
  refine ⟨rfl, rfl, ?_, ?_⟩
  · simpa using file_translate_text_log tool client "" none
  · simpa using doc_translate_text_log dtool client "" none

/-- Claim C4 counterexample: an authentication failure raised by the backend
double is surfaced by `_run` as a `RuntimeError` — the original `AuthError`
kind is reclassified and no longer inspectable as a kind. -/
theorem C4_counterexample :
    AzureTranslatorTool.run (failingBackend (.authError "401 Unauthorized")) "Hello" "es"
      = (.error (.runtimeError "Error while running AzureTranslateTool: 401 Unauthorized"),
        [⟨["Hello"], ["es"]⟩])
    ∧ AzureFileTranslateTool.default.run (failingBackend (.authError "401 Unauthorized")) "Hello"
      = (.error (.runtimeError
          "Error while running AzureFileTranslateTool: An error occurred during translation: 401 Unauthorized"),
        [⟨["Hello"], ["en"]⟩])
    ∧ PyError.runtimeError "Error while running AzureTranslateTool: 401 Unauthorized"
      ≠ PyError.authError "401 Unauthorized" :=
  ⟨rfl, rfl, by decide⟩

/-- Claim C4 (amended): whatever exception the backend raises, `_run` of the
azureTranslate tool and of the file tool re-raise it as a `RuntimeError`
whose message embeds the original message; the original error kind is not
preserved as an inspectable kind. -/
theorem C4_errors_reclassified_to_runtime
    (client : Backend) (q lang : String) (e : PyError)
    (tool : AzureFileTranslateTool)
    (hq : q ≠ "")
    (h1 : client ⟨[q], [lang]⟩ = .error e)
    (h2 : client ⟨[q], [tool.target_language]⟩ = .error e) :
    AzureTranslatorTool.run client q lang
      = (.error (.runtimeError ("Error while running AzureTranslateTool: " ++ e.message)),
        [⟨[q], [lang]⟩])
    ∧ tool.run client q
      = (.error (.runtimeError ("Error while running AzureFileTranslateTool: "
          ++ ("An error occurred during translation: " ++ e.message))),
        [⟨[q], [tool.target_language]⟩]) := by
  constructor
  · simp [AzureTranslatorTool.run, AzureTranslatorTool.translate_text, hq, h1, PyError.message]
  · simp [AzureFileTranslateTool.run, AzureFileTranslateTool.translate_text, h2, PyError.message]

/-- Claim C4 witness: the amended theorem applied to a backend double
raising a transient-style network failure. -/
theorem C4_witness :
    AzureTranslatorTool.run (failingBackend (.transientError "503 Service Unavailable")) "Hola" "fr"
      = (.error (.runtimeError ("Error while running AzureTranslateTool: "
          ++ PyError.message (.transientError "503 Service Unavailable"))),
        [⟨["Hola"], ["fr"]⟩]) :=
  (C4_errors_reclassified_to_runtime (failingBackend (.transientError "503 Service Unavailable"))
    "Hola" "fr" (.transientError "503 Service Unavailable") AzureFileTranslateTool.default
    (by decide) rfl rfl).1

/-- Claim C5 counterexample: `_run` on the unsupported path `archive.zip`
does not fail with an unsupported-format error — it submits the path to the
backend (one recorded invocation) and returns the backend's answer. -/
theorem C5_counterexample :
    AzureFileTranslateTool.default.run (constBackend "zip translated") "archive.zip"
      = (.ok "zip translated", [⟨["archive.zip"], ["en"]⟩])
    ∧ [TranslateRequest.mk ["archive.zip"] ["en"]].length = 1 :=
  ⟨rfl, rfl⟩

/-- Claim C5 (amended): format detection is a pure, case-insensitive
function of the path's extension — `detect` factors through the lowercased
`splitext` extension and recognises every supported format in any character
case — and on an unsupported extension `_read_text_from_file` (not `_run`,
which never performs detection) fails with `ValueError` without consulting
the file system or the loaders. -/
theorem C5_detection_pure_case_insensitive
    (fs fs' : FileSystem) (loaders loaders' : Loaders) (path q : String) :
    (detect path = .unsupported →
      AzureFileTranslateTool.read_text_from_file fs loaders path
        = .error (.valueError ("Unsupported file type: " ++ pyLower (splitextExt path)))
      ∧ AzureFileTranslateTool.read_text_from_file fs loaders path
        = AzureFileTranslateTool.read_text_from_file fs' loaders' path)
    ∧ (pyLower (splitextExt q) = pyLower (splitextExt path) → detect q = detect path)
    ∧ detect "A.TxT" = .plainText ∧ detect "b.PDF" = .pdf ∧ detect "c.DocX" = .docx
    ∧ detect "d.pPtx" = .pptx ∧ detect "e.XLSX" = .xlsx ∧ detect "f.Html" = .html
    ∧ detect "g.xMl" = .xml ∧ detect "archive.zip" = .unsupported := by
  refine ⟨?_, ?_, by decide, by decide, by decide, by decide, by decide, by decide,
    by decide, by decide⟩
  · intro hd
    obtain ⟨h1, h2⟩ := (detect_eq_unsupported_iff path).1 hd
    constructor <;>
      simp [AzureFileTranslateTool.read_text_from_file, h1, h2]
  · intro h
    unfold detect
    rw [h]

/-- Claim C5 witness: the amended theorem applied at path `archive.zip`. -/
theorem C5_witness :
    AzureFileTranslateTool.read_text_from_file noFile (constLoaders []) "archive.zip"
      = .error (.valueError ("Unsupported file type: " ++ pyLower (splitextExt "archive.zip"))) :=
  ((C5_detection_pure_case_insensitive noFile noFile (constLoaders []) (constLoaders [])
    "archive.zip" "x").1 (by decide)).1

/-- Claim C6 counterexample: extraction joins the page contents with a
single space but does not trim the joined result — with segments
`" a"` and `"b "` the extracted text is `" a b "`, which is not
whitespace-trimmed. -/
theorem C6_counterexample :
    AzureFileTranslateTool.read_text_from_file noFile (constLoaders [" a", "b "]) "doc.pdf"
      = .ok " a b "
    ∧ pyStrip " a b " ≠ " a b " :=
  ⟨rfl, by decide⟩

/-- Claim C6 (amended): for loader-backed formats the extracted text is the
page contents joined by a single space with no final trimming (an empty
loader result yields the valid empty string, not an error), while the
plain-text path returns the whole file contents trimmed. -/
theorem C6_extraction_join_untrimmed
    (fs : FileSystem) (loaders : Loaders) (path tpath : String) (k : LoaderKind)
    (docs : List String) (c : String)
    (hk : loader_map (pyLower (splitextExt path)) = some k)
    (hl : loaders k path = .ok docs)
    (ht : pyLower (splitextExt tpath) = ".txt")
    (hf : fs tpath = .ok c) :
    AzureFileTranslateTool.read_text_from_file fs loaders path
      = .ok (String.intercalate " " docs)
    ∧ AzureDocumentTranslateTool.read_text_from_file fs loaders path
      = .ok (String.intercalate " " docs)
    ∧ AzureFileTranslateTool.read_text_from_file fs loaders tpath = .ok (pyStrip c) := by
  have hne : pyLower (splitextExt path) ≠ ".txt" := by
    intro h
    rw [h, loader_map_txt] at hk
    exact Option.noConfusion hk
  refine ⟨?_, ?_, ?_⟩
  · simp [AzureFileTranslateTool.read_text_from_file, hne, hk, hl]
  · simp [AzureDocumentTranslateTool.read_text_from_file, hne, hk, hl]
  · simp [AzureFileTranslateTool.read_text_from_file, ht, AzureFileTranslateTool.read_text, hf]

/-- Claim C6 witness: the amended theorem applied to a PDF whose loader
double yields two segments and to a text file containing padded text. -/
theorem C6_witness :
    AzureFileTranslateTool.read_text_from_file (fun _ => .ok " Hello ")
        (constLoaders ["Quarterly", "results"]) "b.pdf"
      = .ok (String.intercalate " " ["Quarterly", "results"])
    ∧ AzureFileTranslateTool.read_text_from_file (fun _ => .ok " Hello ")
        (constLoaders ["Quarterly", "results"]) "notes.txt" = .ok (pyStrip " Hello ") :=
  ⟨(C6_extraction_join_untrimmed (fun _ => .ok " Hello ")
      (constLoaders ["Quarterly", "results"]) "b.pdf" "notes.txt" .pdf
      ["Quarterly", "results"] " Hello " rfl rfl rfl rfl).1,
   (C6_extraction_join_untrimmed (fun _ => .ok " Hello ")
      (constLoaders ["Quarterly", "results"]) "b.pdf" "notes.txt" .pdf
      ["Quarterly", "results"] " Hello " rfl rfl rfl rfl).2.2⟩

/-- Claim C7 counterexample: constructing the document tool with an empty
`apiKey` argument succeeds when the environment supplies a key — the
construction-time failure the claim requires does not happen. -/
theorem C7_counterexample :
    AzureDocumentTranslateTool.init env7 (some "") (some "endpoint")
      = .ok ⟨"env-key", "endpoint", "es"⟩ :=
  rfl

/-- Claim C7 (amended): with an empty environment, an empty (or absent) key
or endpoint makes construction of the document tool fail with `ValueError`
at construction time; and independently of the environment, any
successfully constructed instance of either constructor-validated tool
holds a non-empty key and endpoint, so the validation is never deferred to
call time. -/
theorem C7_construction_validation (env : Env) (k ep : Option String)
    (henv1 : env "TEXT_TRANSLATION_KEY" = none)
    (henv2 : env "TEXT_TRANSLATION_ENDPOINT" = none) :
    ((truthyOpt k = false ∨ truthyOpt ep = false) →
      AzureDocumentTranslateTool.init env k ep
        = .error (.valueError "Azure Cognitive Services key and endpoint must be provided"))
    ∧ (∀ env2 k2 ep2 t, AzureDocumentTranslateTool.init env2 k2 ep2 = .ok t →
        t.text_translation_key ≠ "" ∧ t.text_translation_endpoint ≠ "")
    ∧ (∀ env2 k2 ep2 p, AzureTranslatorTool.init env2 k2 ep2 = .ok p →
        p.1 ≠ "" ∧ p.2 ≠ "") := by
  refine ⟨?_, ?_, ?_⟩
  · intro h
    unfold AzureDocumentTranslateTool.init
    rw [henv1, henv2]
    rcases h with h | h <;> simp [truthyOpt_pyOr_none, h]
  · intro env2 k2 ep2 t hinit
    unfold AzureDocumentTranslateTool.init at hinit
    by_cases hc : (truthyOpt (pyOr k2 (env2 "TEXT_TRANSLATION_KEY"))
        && truthyOpt (pyOr ep2 (env2 "TEXT_TRANSLATION_ENDPOINT"))) = true
    · rw [if_pos hc] at hinit
      obtain ⟨hk, he⟩ := Bool.and_eq_true_iff.mp hc
      injection hinit with ht
      rw [← ht]
      exact ⟨truthyOpt_getD_ne _ hk, truthyOpt_getD_ne _ he⟩
    · rw [if_neg hc] at hinit
      exact Except.noConfusion hinit
  · intro env2 k2 ep2 p hinit
    unfold AzureTranslatorTool.init at hinit
    by_cases hc : (truthyOpt (pyOr k2 (env2 "AZURE_OPENAI_TRANSLATE_API_KEY"))
        && truthyOpt (pyOr ep2 (env2 "AZURE_OPENAI_TRANSLATE_ENDPOINT"))) = true
    · rw [if_pos hc] at hinit
      obtain ⟨hk, he⟩ := Bool.and_eq_true_iff.mp hc
      injection hinit with ht
      rw [← ht]
      exact ⟨truthyOpt_getD_ne _ hk, truthyOpt_getD_ne _ he⟩
    · rw [if_neg hc] at hinit
      exact Except.noConfusion hinit

/-- Claim C7 witness: the amended theorem applied at the empty environment
with an empty key argument. -/
theorem C7_witness :
    AzureDocumentTranslateTool.init envEmpty (some "") (some "endpoint")
      = .error (.valueError "Azure Cognitive Services key and endpoint must be provided") :=
  (C7_construction_validation envEmpty (some "") (some "endpoint") rfl rfl).1
    (Or.inl (by decide))

/-- Claim C8 counterexample: on an instance constructed with a fully
explicit configuration, `validate_environment` reads the process
environment and overwrites the configuration — under one environment it
replaces the explicit key, under the empty environment it raises — so the
behaviour differs between two runs that differ only in the environment. -/
theorem C8_counterexample :
    (AzureTranslateTool.construct "explicit-key" "explicit-endpoint" "explicit-region").validate_environment envA
      = .ok ⟨"other-key", "other-endpoint", "other-region", none⟩
    ∧ (AzureTranslateTool.construct "explicit-key" "explicit-endpoint" "explicit-region").validate_environment envEmpty
      = .error (.valueError "AZURE_TRANSLATE_API_KEY is missing in environment variables")
    ∧ ((.ok ⟨"other-key", "other-endpoint", "other-region", none⟩ :
          Except PyError AzureTranslateTool)
        ≠ .error (.valueError "AZURE_TRANSLATE_API_KEY is missing in environment variables")) :=
  ⟨rfl, rfl, fun h => Except.noConfusion h⟩

/-- Claim C8 (amended): the client setup, the translate call and `_run` of
translate_tool's `AzureTranslateTool` read no environment variable — their
behaviour on any state is identical under any two environments; only
`validate_environment` consults the environment. -/
theorem C8_core_env_independent (env1 env2 : Env) (net : NetCall)
    (s : AzureTranslateTool) (text lang query : String) :
    s.setup_client env1 = s.setup_client env2
    ∧ s.translate_text env1 net text lang = s.translate_text env2 net text lang
    ∧ s.run env1 net query lang = s.run env2 net query lang :=
  ⟨rfl, rfl, rfl⟩

/-- Claim C9 (confirmed): the connection handle is lazily constructed at
most once — `setup_client` leaves an existing client untouched and builds
one from the instance endpoint and key when absent, and `_translate_text`
on non-empty text performs its remote calls through exactly the client that
`setup_client` guarantees, leaving that client in place afterwards. -/
theorem C9_lazy_client_constructed_once (s : AzureTranslateTool) (env : Env)
    (net : NetCall) (text lang : String) :
    (∀ c, s.translate_client = some c → s.setup_client env = s)
    ∧ (s.translate_client = none →
        (s.setup_client env).translate_client
          = some ⟨s.text_translation_endpoint, s.text_translation_key⟩)
    ∧ (text ≠ "" →
        (s.translate_text env net text lang).2.1 = s.setup_client env
        ∧ ∀ p ∈ (s.translate_text env net text lang).2.2,
            (s.setup_client env).translate_client = some p.1) := by
  refine ⟨?_, ?_, ?_⟩
  · intro c hc
    unfold AzureTranslateTool.setup_client
    rw [hc]
  · intro hc
    unfold AzureTranslateTool.setup_client
    rw [hc]
  · intro ht
    obtain ⟨sk, sep, srg, soc⟩ := s
    rcases soc with _ | c0 <;>
    · unfold AzureTranslateTool.translate_text AzureTranslateTool.setup_client
      rw [if_neg ht]
      dsimp only
      rcases h2 : net _ ⟨[text], [lang]⟩ with e | response
      · exact ⟨rfl, fun p hp => by rw [List.mem_singleton.mp hp]⟩
      · rcases response with _ | ⟨⟨ts⟩, rest⟩
        · exact ⟨rfl, fun p hp => by rw [List.mem_singleton.mp hp]⟩
        · rcases ts with _ | ⟨t, more⟩ <;>
            exact ⟨rfl, fun p hp => by rw [List.mem_singleton.mp hp]⟩

/-- Claim C9 witness: the theorem applied to a freshly constructed instance
(no client) translating `Hello`: the call leaves the lazily built client in
place and that client is the one built from the explicit endpoint and key. -/
theorem C9_witness :
    ((AzureTranslateTool.construct "k" "ep" "r").translate_text envEmpty
        (constNet "Hola") "Hello" "es").2.1
      = (AzureTranslateTool.construct "k" "ep" "r").setup_client envEmpty
    ∧ ((AzureTranslateTool.construct "k" "ep" "r").setup_client envEmpty).translate_client
      = some ⟨"ep", "k"⟩ := by
  have h := C9_lazy_client_constructed_once (AzureTranslateTool.construct "k" "ep" "r")
    envEmpty (constNet "Hola") "Hello" "es"
  exact ⟨(h.2.2 (by decide)).1, h.2.1 rfl⟩

/-- Claim C10 (confirmed): the file-translation tools' `_run` takes no
per-call target language — every request it issues carries the instance's
`target_language` field, whose class defaults are `"en"` for the file tool
and `"es"` for the document tool (set in `__init__`), and two instances
differing only in that field send the same query with different target
languages. -/
theorem C10_target_language_from_instance
    (tool : AzureFileTranslateTool) (dtool : AzureDocumentTranslateTool)
    (client : Backend) (query : String) (env : Env) (k ep : Option String) :
    (∀ req ∈ (tool.run client query).2, req.to_languages = [tool.target_language])
    ∧ (∀ req ∈ (dtool.run client query).2, req.to_languages = [dtool.target_language])
    ∧ AzureFileTranslateTool.default.target_language = "en"
    ∧ (∀ t, AzureDocumentTranslateTool.init env k ep = .ok t → t.target_language = "es")
    ∧ ((AzureFileTranslateTool.mk "" "" "de").run client query).2 = [⟨[query], ["de"]⟩]
    ∧ ((AzureFileTranslateTool.mk "" "" "fr").run client query).2 = [⟨[query], ["fr"]⟩] := by
  refine ⟨?_, ?_, rfl, ?_, ?_, ?_⟩
  · intro req hreq
    rw [file_run_log] at hreq
    rw [List.mem_singleton] at hreq
    subst hreq
    rfl
  · intro req hreq
    rw [doc_run_log] at hreq
    rw [List.mem_singleton] at hreq
    subst hreq
    rfl
  · intro t hinit
    unfold AzureDocumentTranslateTool.init at hinit
    by_cases hc : (truthyOpt (pyOr k (env "TEXT_TRANSLATION_KEY"))
        && truthyOpt (pyOr ep (env "TEXT_TRANSLATION_ENDPOINT"))) = true
    · rw [if_pos hc] at hinit
      injection hinit with ht
      rw [← ht]
    · rw [if_neg hc] at hinit
      exact Except.noConfusion hinit
  · exact file_run_log ⟨"", "", "de"⟩ client query
  · exact file_run_log ⟨"", "", "fr"⟩ client query

/-- Claim C10 witness: the theorem applied to the default file tool with a
constant backend double — the one issued request targets `"en"`. -/
theorem C10_witness :
    (TranslateRequest.mk ["hi"] ["en"]).to_languages
      = [AzureFileTranslateTool.default.target_language] :=
  (C10_target_language_from_instance AzureFileTranslateTool.default ⟨"k", "ep", "es"⟩
    (constBackend "Hola") "hi" envEmpty none none).1 ⟨["hi"], ["en"]⟩
    (by rw [file_run_log]; exact List.mem_singleton.mpr rfl)

end AzureSpec
